import Mathlib

/-!
Shallow embedding of src/bot.py (a Discord bot that provisions private
channels and relays a Bluesky feed into per-guild channels).

Conventions of the embedding:
* timestamps are Nat, order-isomorphic to the parsed ISO datetimes the code
  compares; the epoch default string of line 181 is the value 0;
* a nullable column is Option; a Python falsy string watermark is none;
* a send that raises (caught at lines 215-218) is a post with send_ok false;
* Python str.split / str.strip / str.lower / str.rsplit are re-implemented
  structurally on the underlying character list so that concrete instances
  evaluate inside the kernel.
-/

namespace Bot

/-! ### Python string primitives -/

/-- Python s.split(sep) for a one-character separator: splits on every
occurrence, keeping empty fragments (so splitting the empty string yields
one empty fragment, as in Python). -/
def splitOnCharAux (sep : Char) : List Char → List Char → List (List Char)
  | [], acc => [acc.reverse]
  | c :: rest, acc =>
    if c = sep then acc.reverse :: splitOnCharAux sep rest []
    else splitOnCharAux sep rest (c :: acc)

/-- Python s.split(sep) producing strings. -/
def pySplit (sep : Char) (s : String) : List String :=
  (splitOnCharAux sep s.data []).map String.mk

/-- Drops leading whitespace characters. -/
def dropLeadingSpace : List Char → List Char
  | [] => []
  | c :: rest => if c.isWhitespace then dropLeadingSpace rest else c :: rest

/-- Python s.strip(): removes whitespace from both ends. -/
def pyStrip (s : String) : String :=
  String.mk ((dropLeadingSpace ((dropLeadingSpace s.data).reverse)).reverse)

/-- Python s.lower() (ASCII case folding, as the code applies to usernames). -/
def pyLower (s : String) : String := String.mk (s.data.map Char.toLower)

/-- Joins character-list fragments with a separator character. -/
def intercalateChar (sep : Char) : List (List Char) → List Char
  | [] => []
  | [l] => l
  | l :: l2 :: ls => l ++ sep :: intercalateChar sep (l2 :: ls)

/-- Python sep.join(xs) for a one-character separator. -/
def pyJoin (sep : Char) (xs : List String) : String :=
  String.mk (intercalateChar sep (xs.map String.data))

/-- Python u.rsplit(sep, 1)[0]: everything before the last separator. -/
def rsplitBefore (sep : Char) (u : String) : String :=
  String.mk (intercalateChar sep ((splitOnCharAux sep u.data []).dropLast))

/-- Python u.rsplit(sep, 1)[1]: everything after the last separator. -/
def rsplitAfter (sep : Char) (u : String) : String :=
  String.mk (((splitOnCharAux sep u.data []).getLast?).getD [])

/-- Python (sep in u). -/
def containsChar (u : String) (sep : Char) : Bool := u.data.contains sep

/-! ### Data model (class GuildConfig, lines 25-34, and guild members) -/

/-- One row of the guild_configs table (lines 25-34). bluesky_enabled is an
int used only as 0/1 (the feed query tests == 1), modelled as Bool.
last_bluesky_post is the per-guild feed watermark; none models NULL and the
Python-falsy empty string. -/
structure GuildConfig where
  guild_id : Nat
  private_channels_category : Option Nat
  admin_usernames : Option String
  bluesky_enabled : Bool
  bluesky_channel_id : Option Nat
  last_bluesky_post : Option Nat
deriving Repr, DecidableEq

/-- A guild member as consulted by the username-resolution code: m.name,
str(m.discriminator) and m.id (lines 102-112). -/
structure Member where
  id : Nat
  name : String
  discriminator : String
deriving Repr, DecidableEq

/-- Replaces only the last_bluesky_post column (line 228). -/
def setWatermark (c : GuildConfig) (w : Option Nat) : GuildConfig :=
  GuildConfig.mk c.guild_id c.private_channels_category c.admin_usernames
    c.bluesky_enabled c.bluesky_channel_id w

/-- Replaces only the admin_usernames column (lines 85-86). -/
def setAdminUsernames (c : GuildConfig) (v : Option String) : GuildConfig :=
  GuildConfig.mk c.guild_id c.private_channels_category v
    c.bluesky_enabled c.bluesky_channel_id c.last_bluesky_post

/-! ### Feed polling engine (check_bluesky_feed, lines 119-237) -/

/-- One item of the fetched author feed as the per-post loop reads it:
its record text, its record created_at (none models a missing/falsy
timestamp, line 192), and whether the channel.send of its embed succeeds
(an exception is caught at lines 215-218 and the loop continues). -/
structure Post where
  post_text : String
  created_at : Option Nat
  send_ok : Bool
deriving Repr, DecidableEq

/-- Line 181: config.last_bluesky_post or the epoch string. -/
def watermarkOrEpoch (w : Option Nat) : Nat := w.getD 0

/-- Lines 186-214: a fetched post results in a delivered message exactly
when it has a creation timestamp, that timestamp is strictly after the
watermark, and the send itself does not raise. -/
def postQualifies (last : Nat) (q : Post) : Bool :=
  match q.created_at with
  | none => false
  | some t => decide (last < t) && q.send_ok

/-- The messages actually delivered for one guild, in the order the loop
sends them (the fetched order, filtered). -/
def deliveredPosts (posts : List Post) (last : Nat) : List Post :=
  posts.filter (postQualifies last)

/-- Lines 223-233: after the per-post loop, if the fetched list is nonempty
and its first element has a truthy created_at, the watermark column is set
to that timestamp; otherwise it is left as it was. -/
def updatedWatermark (posts : List Post) (old : Option Nat) : Option Nat :=
  match posts with
  | [] => old
  | q :: _ =>
    match q.created_at with
    | none => old
    | some t => some t

/-- Result of one guild's delivery pass: the messages sent to its channel,
in order, and the watermark column after the pass. -/
structure TenantResult where
  sent : List Post
  watermark : Option Nat
deriving Repr, DecidableEq

/-- Lines 175-233, the body of the per-config loop for one guild.
channelFound models bot.get_channel(config.bluesky_channel_id) returning a
channel; when it does not (lines 177-179), the loop continues before any
send and before the watermark update. -/
def perTenantDelivery (posts : List Post) (cfg : GuildConfig) (channelFound : Bool) : TenantResult :=
  match channelFound with
  | false => TenantResult.mk [] cfg.last_bluesky_post
  | true =>
    TenantResult.mk
      (deliveredPosts posts (watermarkOrEpoch cfg.last_bluesky_post))
      (updatedWatermark posts cfg.last_bluesky_post)

/-- Environment of one poll cycle: whether both feed credentials are set
(lines 125-128), whether client.login succeeds (line 131), whether the
profile/feed fetch succeeds (lines 151-173), the fetched posts, and which
channel ids resolve. -/
structure CycleEnv where
  hasCredentials : Bool
  loginOk : Bool
  fetchOk : Bool
  posts : List Post
  channelFound : Option Nat → Bool

/-- Line 168: the feed request asks for 1 item when the FIRST enabled
config's last_bluesky_post is falsy, else 10; none when no fetch happens
because no guild has the feed enabled (lines 147-148). -/
def requestedPageLimit (cs : List GuildConfig) : Option Nat :=
  match cs.filter (fun c => c.bluesky_enabled) with
  | [] => none
  | c0 :: _ => some (if c0.last_bluesky_post = none then 1 else 10)

/-- What one poll cycle does to a single stored config row: rows with the
feed disabled are never selected (line 141); rows whose channel does not
resolve are skipped (lines 177-179); otherwise the per-guild delivery pass
runs and its watermark is committed. -/
def cycleConfigStep (env : CycleEnv) (c : GuildConfig) : GuildConfig × List Post :=
  match c.bluesky_enabled with
  | false => (c, [])
  | true =>
    match env.channelFound c.bluesky_channel_id with
    | false => (c, [])
    | true =>
      (setWatermark c (perTenantDelivery env.posts c true).watermark,
       (perTenantDelivery env.posts c true).sent)

/-- Outcome of one poll cycle over the whole config table: whether the
feed fetch was reached, the page limit it requested, and for every stored
config row its post-cycle state paired with the messages sent to it. -/
structure CycleResult where
  fetched : Bool
  requestedLimit : Option Nat
  perGuild : List (GuildConfig × List Post)
deriving Repr, DecidableEq

/-- A cycle that stops before fetching leaves every row untouched and
sends nothing. -/
def untouched (cs : List GuildConfig) : List (GuildConfig × List Post) :=
  cs.map (fun c => (c, []))

/-- check_bluesky_feed (lines 119-237) over the stored config rows.
Aborts, touching nothing, when credentials are configured but login fails
(lines 128-135), when no guild has the feed enabled (lines 147-148), or
when the profile/feed fetch raises (lines 151, 235-237). -/
def check_bluesky_feed (env : CycleEnv) (cs : List GuildConfig) : CycleResult :=
  if env.hasCredentials && !env.loginOk then
    CycleResult.mk false none (untouched cs)
  else if (cs.filter (fun c => c.bluesky_enabled)).isEmpty then
    CycleResult.mk false none (untouched cs)
  else if !env.fetchOk then
    CycleResult.mk false none (untouched cs)
  else
    CycleResult.mk true (requestedPageLimit cs) (cs.map (cycleConfigStep env))

/-! ### Username resolution (get_admin_mentions, lines 95-117) -/

/-- Lines 102-112: resolve one configured username against the member
list; the name#discriminator form splits at the LAST hash sign; names
compare case-insensitively, discriminators exactly; the first matching
member wins. -/
def findMember (ms : List Member) (username : String) : Option Member :=
  if containsChar username '#' then
    ms.find? (fun m =>
      pyLower m.name == pyLower (rsplitBefore '#' username) &&
      m.discriminator == rsplitAfter '#' username)
  else
    ms.find? (fun m => pyLower m.name == pyLower username)

/-- get_admin_mentions (lines 95-117): a falsy admin_usernames column
yields no mentions; otherwise the comma-separated names are stripped and
resolved, unresolved names are dropped (logged only), and each resolved
name contributes its member id (the code renders it as a mention string). -/
def get_admin_mentions (ms : List Member) (admin_usernames : Option String) : List Nat :=
  match admin_usernames with
  | none => []
  | some s =>
    if s = "" then []
    else ((pySplit ',' s).map pyStrip).filterMap (fun u => Option.map Member.id (findMember ms u))

/-! ### Settings modal, ADMIN_USERNAMES branch (lines 568-649) -/

/-- Lines 570 and 595: the submitted text is stripped, split on commas,
and each fragment stripped again. -/
def parseSubmitted (raw : String) : List String :=
  (pySplit ',' (pyStrip raw)).map pyStrip

/-- What the submit handler reports back for this field. -/
inductive SubmitOutcome where
  | rejected (invalid : List String)
  | success (stored : String)
deriving Repr, DecidableEq

/-- on_submit for the ADMIN_USERNAMES setting (lines 593-632): every
fragment is resolved against the member list; if any fails, the whole
update is rejected with the failing fragments and the stored row is
untouched; otherwise the joined resolved fragments are written to the
admin_usernames column. Returns the row after the handler and the
outcome shown to the submitter. -/
def adminUsernamesOnSubmit (ms : List Member) (raw : String) (cfg : GuildConfig) : GuildConfig × SubmitOutcome :=
  if (parseSubmitted raw).filter (fun u => (findMember ms u).isNone) = [] then
    (setAdminUsernames cfg
       (some (pyJoin ',' ((parseSubmitted raw).filter (fun u => (findMember ms u).isSome)))),
     SubmitOutcome.success
       (pyJoin ',' ((parseSubmitted raw).filter (fun u => (findMember ms u).isSome))))
  else
    (cfg, SubmitOutcome.rejected ((parseSubmitted raw).filter (fun u => (findMember ms u).isNone)))

/-! ### Private-channel provisioning (create_private_channel, lines 294-321,
and the signup / help commands, lines 394-496) -/

/-- The error raised before any channel is created. The code raises
ValueError with these messages; the spec names the first one
ConfigurationMissing and the message is the admin-actionable text the
command handlers forward verbatim (lines 432-433, 485-486). -/
inductive ProvisionError where
  | configurationMissing (msg : String)
  | categoryNotFound (msg : String)
deriving Repr, DecidableEq

/-- Line 302. -/
def categoryUnsetMsg : String :=
  "Private channels category not set! An admin needs to set this using /settings"

/-- Line 306. -/
def categoryGoneMsg : String :=
  "Could not find the specified category for channels!"

/-- The message the handlers send back for a provisioning error. -/
def provisionErrorText : ProvisionError → String
  | ProvisionError.configurationMissing m => m
  | ProvisionError.categoryNotFound m => m

/-- The result value of create_private_channel. -/
inductive PResult where
  | ok (channelName : String)
  | err (e : ProvisionError)
deriving Repr, DecidableEq

/-- Observable effects of one provisioning attempt: how many channels were
created, how many messages were posted into a channel, and the returned
value or raised error. -/
structure ProvisionOutcome where
  channelsCreated : Nat
  channelMessagesPosted : Nat
  result : PResult
deriving Repr, DecidableEq

/-- Environment for provisioning: whether guild.get_channel finds the
category with a given id (line 304). -/
structure ProvisionEnv where
  categoryIsPresent : Nat → Bool

/-- Line 301: Python falsy test on the stored category id (NULL or 0). -/
def pyFalsyId (o : Option Nat) : Bool :=
  match o with
  | none => true
  | some n => n == 0

/-- create_private_channel (lines 294-321): with an unset category column
it raises before creating anything (lines 301-302); with a category id
that no longer resolves it raises at lines 304-306; otherwise it creates
exactly one channel named from the lowercased display name and the suffix
(line 297) and posts exactly one seed message into it (line 320). -/
def create_private_channel (env : ProvisionEnv) (cfg : GuildConfig) (userDisplay : String) (suffix : String) : ProvisionOutcome :=
  if pyFalsyId cfg.private_channels_category then
    ProvisionOutcome.mk 0 0 (PResult.err (ProvisionError.configurationMissing categoryUnsetMsg))
  else if !(env.categoryIsPresent (cfg.private_channels_category.getD 0)) then
    ProvisionOutcome.mk 0 0 (PResult.err (ProvisionError.categoryNotFound categoryGoneMsg))
  else
    ProvisionOutcome.mk 1 1 (PResult.ok (pyLower userDisplay ++ "-" ++ suffix))

/-- The ephemeral reply a provisioning command sends its invoker. -/
inductive CommandReply where
  | noAdminsConfigured
  | channelCreated (channelName : String)
  | errorText (msg : String)
deriving Repr, DecidableEq

/-- Observable effects of one signup or help invocation. -/
structure CommandOutcome where
  channelsCreated : Nat
  channelMessagesPosted : Nat
  reply : CommandReply
deriving Repr, DecidableEq

/-- Shared body of the signup (lines 399-443) and help (lines 455-496)
commands: resolve admin mentions first; with none resolved, reply with the
configuration message and stop before any channel call (lines 408-413 and
464-469); otherwise run create_private_channel and report its result. -/
def runProvisionCommand (env : ProvisionEnv) (ms : List Member) (cfg : GuildConfig) (userDisplay : String) (suffix : String) : CommandOutcome :=
  if get_admin_mentions ms cfg.admin_usernames = [] then
    CommandOutcome.mk 0 0 CommandReply.noAdminsConfigured
  else
    match create_private_channel env cfg userDisplay suffix with
    | ProvisionOutcome.mk created posted (PResult.ok name) =>
      CommandOutcome.mk created posted (CommandReply.channelCreated name)
    | ProvisionOutcome.mk created posted (PResult.err e) =>
      CommandOutcome.mk created posted (CommandReply.errorText (provisionErrorText e))

/-- The signup command (lines 394-443). -/
def signup (env : ProvisionEnv) (ms : List Member) (cfg : GuildConfig) (userDisplay : String) : CommandOutcome :=
  runProvisionCommand env ms cfg userDisplay "introduction"

/-- The help command (lines 450-496). -/
def help (env : ProvisionEnv) (ms : List Member) (cfg : GuildConfig) (userDisplay : String) : CommandOutcome :=
  runProvisionCommand env ms cfg userDisplay "help"

/-! ### Concrete instances used to settle the claims -/

/-- A feed-enabled guild row whose watermark is 3. -/
def cfgW3 : GuildConfig := GuildConfig.mk 1 none none true (some 10) (some 3)

/-- A post newer than that watermark whose delivery fails. -/
def postFailAt5 : Post := Post.mk "hello" (some 5) false

/-- A feed-enabled guild row that has never delivered. -/
def cfgFresh : GuildConfig := GuildConfig.mk 2 none none true (some 10) none

/-- Three deliverable posts fetched in the order T3, T1, T2. -/
def postsT312 : List Post :=
  [Post.mk "t3" (some 3) true, Post.mk "t1" (some 1) true, Post.mk "t2" (some 2) true]

/-- Two deliverable posts fetched oldest-first. -/
def postsOldFirst : List Post :=
  [Post.mk "older" (some 1) true, Post.mk "newer" (some 2) true]

/-- A feed-enabled guild row whose watermark is 5. -/
def cfgW5 : GuildConfig := GuildConfig.mk 4 none none true (some 10) (some 5)

/-- A single deliverable post older than that watermark. -/
def postsOnlyOld : List Post := [Post.mk "old" (some 1) true]

/-! ### C1 -/

/--
C1, as stated, is false on the code: the watermark update (lines 223-233)
copies the creation timestamp of the FIRST fetched post, with no regard to
what was delivered. Here the only fetched post fails to send, nothing is
delivered, and the watermark still jumps from 3 to that post's timestamp 5.
-/
theorem C1_counterexample :
    (perTenantDelivery [postFailAt5] cfgW3 true).sent = [] ∧
    cfgW3.last_bluesky_post = some 3 ∧
    (perTenantDelivery [postFailAt5] cfgW3 true).watermark = some 5 := by
  decide

/--
C1 (amended): after a delivery pass whose fetch returned at least one item
whose first element carries a creation timestamp, the tenant's watermark
equals the creation timestamp of that first FETCHED item — independent of
which items (if any) were actually delivered; a delivery failure on any
item does not hold the watermark back.
-/
theorem C1_theorem (p : Post) (rest : List Post) (cfg : GuildConfig) (t : Nat)
    (h : p.created_at = some t) :
    (perTenantDelivery (p :: rest) cfg true).watermark = some t := by
  simp [perTenantDelivery, updatedWatermark, h]

/--
C1 witness: a concrete pass over one fetched post with timestamp 7 whose
send fails; the watermark still becomes 7.
-/
theorem C1_witness :
    (perTenantDelivery [Post.mk "x" (some 7) false] (GuildConfig.mk 9 none none true none (some 2)) true).watermark = some 7 :=
  C1_theorem (Post.mk "x" (some 7) false) [] (GuildConfig.mk 9 none none true none (some 2)) 7 rfl

/-! ### C2 -/

/--
C2, as stated, is false on the code: the per-post loop (lines 186-214)
sends in fetch order and never sorts. With items fetched in the order
[T3, T1, T2] and a fresh watermark, the delivered order is T3, T1, T2 —
not the ascending order T1, T2, T3 the claim requires.
-/
theorem C2_counterexample :
    (perTenantDelivery postsT312 cfgFresh true).sent.map Post.created_at = [some 3, some 1, some 2] ∧
    ¬ List.Sorted (fun a b => a ≤ b) ((perTenantDelivery postsT312 cfgFresh true).sent.filterMap Post.created_at) := by
  decide

/--
C2 (amended): the items delivered to a tenant in one delivery pass are
sent in the order they were fetched (the sent sequence is a subsequence
of the fetched sequence); no chronological reordering is performed.
-/
theorem C2_theorem (posts : List Post) (cfg : GuildConfig) (found : Bool) :
    ((perTenantDelivery posts cfg found).sent).Sublist posts := by
  cases found
  · exact List.nil_sublist posts
  · exact List.filter_sublist posts

/-! ### C3 -/

/--
C3, as stated, is false on the code: with the two deliverable posts
fetched oldest-first and a fresh watermark, the first pass sends both and
sets the watermark to the FIRST fetched (older) timestamp 1; a second
pass over the same items then re-sends the newer post.
-/
theorem C3_counterexample :
    (perTenantDelivery postsOldFirst cfgFresh true).sent.length = 2 ∧
    (perTenantDelivery postsOldFirst
      (setWatermark cfgFresh (perTenantDelivery postsOldFirst cfgFresh true).watermark) true).sent.length = 1 := by
  decide

/--
C3 (amended): if the first fetched item carries the maximal creation
timestamp among all fetched items (in particular when the feed arrives
newest-first, as the upstream normally returns it), then a second pass
over the same fetched items, starting from the watermark the first pass
produced, sends zero messages and leaves the watermark unchanged.
-/
theorem C3_theorem (p : Post) (rest : List Post) (t0 : Nat) (cfg : GuildConfig)
    (h : p.created_at = some t0)
    (hmax : ∀ q ∈ p :: rest, q.created_at.getD 0 ≤ t0) :
    (perTenantDelivery (p :: rest)
       (setWatermark cfg (perTenantDelivery (p :: rest) cfg true).watermark) true).sent = [] ∧
    (perTenantDelivery (p :: rest)
       (setWatermark cfg (perTenantDelivery (p :: rest) cfg true).watermark) true).watermark =
      (perTenantDelivery (p :: rest) cfg true).watermark := by
  have hw1 : (perTenantDelivery (p :: rest) cfg true).watermark = some t0 := by
    simp [perTenantDelivery, updatedWatermark, h]
  rw [hw1]
  constructor
  · show deliveredPosts (p :: rest)
      (watermarkOrEpoch (setWatermark cfg (some t0)).last_bluesky_post) = []
    have hset : watermarkOrEpoch (setWatermark cfg (some t0)).last_bluesky_post = t0 := rfl
    rw [hset]
    apply List.filter_eq_nil_iff.mpr
    intro q hq
    have hle := hmax q hq
    cases hc : q.created_at with
    | none => simp [postQualifies, hc]
    | some t =>
      rw [hc] at hle
      simp only [Option.getD_some] at hle
      simp [postQualifies, hc]
      intro hlt
      omega
  · show updatedWatermark (p :: rest) (setWatermark cfg (some t0)).last_bluesky_post = some t0
    simp [updatedWatermark, setWatermark, h]

/--
C3 witness: a concrete newest-first feed of two posts; the second pass
sends nothing and keeps the watermark.
-/
theorem C3_witness :
    (perTenantDelivery [Post.mk "a" (some 5) true, Post.mk "b" (some 4) true]
       (setWatermark (GuildConfig.mk 11 none none true none none)
         (perTenantDelivery [Post.mk "a" (some 5) true, Post.mk "b" (some 4) true]
           (GuildConfig.mk 11 none none true none none) true).watermark) true).sent = [] ∧
    (perTenantDelivery [Post.mk "a" (some 5) true, Post.mk "b" (some 4) true]
       (setWatermark (GuildConfig.mk 11 none none true none none)
         (perTenantDelivery [Post.mk "a" (some 5) true, Post.mk "b" (some 4) true]
           (GuildConfig.mk 11 none none true none none) true).watermark) true).watermark =
      (perTenantDelivery [Post.mk "a" (some 5) true, Post.mk "b" (some 4) true]
        (GuildConfig.mk 11 none none true none none) true).watermark :=
  C3_theorem (Post.mk "a" (some 5) true) [Post.mk "b" (some 4) true] 5
    (GuildConfig.mk 11 none none true none none) rfl (by decide)

/-! ### C4 -/

/--
C4, as stated, is false on the code: with a stored watermark of 5 and a
fetch whose first (and only) item has timestamp 1, the pass REWRITES the
watermark down to 1 — the watermark decreased.
-/
theorem C4_counterexample :
    cfgW5.last_bluesky_post = some 5 ∧
    (perTenantDelivery postsOnlyOld cfgW5 true).watermark = some 1 ∧
    watermarkOrEpoch (perTenantDelivery postsOnlyOld cfgW5 true).watermark <
      watermarkOrEpoch cfgW5.last_bluesky_post := by
  decide

/--
C4 (amended): a delivery pass never decreases the tenant's watermark
PROVIDED the first fetched item (when there is one and it carries a
timestamp) is not older than the current watermark — e.g. whenever the
feed arrives newest-first and reaches back past the watermark. Without
that proviso the code overwrites the watermark with the first fetched
item's timestamp, whatever it is.
-/
theorem C4_theorem (posts : List Post) (cfg : GuildConfig) (found : Bool)
    (h : ∀ q ∈ posts.take 1,
      watermarkOrEpoch cfg.last_bluesky_post ≤
        q.created_at.getD (watermarkOrEpoch cfg.last_bluesky_post)) :
    watermarkOrEpoch cfg.last_bluesky_post ≤
      watermarkOrEpoch (perTenantDelivery posts cfg found).watermark := by
  cases found
  · exact Nat.le_refl _
  · cases posts with
    | nil => exact Nat.le_refl _
    | cons p rest =>
      have hp := h p (by simp)
      cases hc : p.created_at with
      | none =>
        have heq : (perTenantDelivery (p :: rest) cfg true).watermark = cfg.last_bluesky_post := by
          simp [perTenantDelivery, updatedWatermark, hc]
        rw [heq]
      | some t =>
        rw [hc] at hp
        simp only [Option.getD_some] at hp
        have heq : (perTenantDelivery (p :: rest) cfg true).watermark = some t := by
          simp [perTenantDelivery, updatedWatermark, hc]
        rw [heq]
        simpa [watermarkOrEpoch] using hp

/--
C4 witness: a concrete pass where the first fetched item (timestamp 9) is
newer than the stored watermark 5; the watermark does not decrease.
-/
theorem C4_witness :
    watermarkOrEpoch (GuildConfig.mk 12 none none true none (some 5)).last_bluesky_post ≤
      watermarkOrEpoch (perTenantDelivery [Post.mk "new" (some 9) true]
        (GuildConfig.mk 12 none none true none (some 5)) true).watermark :=
  C4_theorem [Post.mk "new" (some 9) true] (GuildConfig.mk 12 none none true none (some 5)) true
    (by decide)

/-! ### C5 -/

/--
C5 (confirmed): the ADMIN_USERNAMES submit handler is all-or-nothing. If
any submitted identifier fails to resolve against the current member
list, the stored row is returned unchanged (no identifier, valid or not,
is persisted) and the outcome enumerates exactly the identifiers that
failed to resolve.
-/
theorem C5_theorem (ms : List Member) (raw : String) (cfg : GuildConfig)
    (h : (parseSubmitted raw).any (fun u => (findMember ms u).isNone) = true) :
    (adminUsernamesOnSubmit ms raw cfg).1 = cfg ∧
    (adminUsernamesOnSubmit ms raw cfg).2 =
      SubmitOutcome.rejected ((parseSubmitted raw).filter (fun u => (findMember ms u).isNone)) := by
  have hne : (parseSubmitted raw).filter (fun u => (findMember ms u).isNone) ≠ [] := by
    intro hnil
    rcases List.any_eq_true.mp h with ⟨u, hu, hbad⟩
    have hcon := List.filter_eq_nil_iff.mp hnil u hu
    simp [hbad] at hcon
  unfold adminUsernamesOnSubmit
  rw [if_neg hne]
  exact ⟨rfl, rfl⟩

/--
C5 witness: submitting the single unresolvable name against an empty
member list leaves the previously stored recipients untouched and rejects
with that name.
-/
theorem C5_witness :
    (adminUsernamesOnSubmit [] "bob" (GuildConfig.mk 13 none (some "alice") false none none)).1 =
      GuildConfig.mk 13 none (some "alice") false none none ∧
    (adminUsernamesOnSubmit [] "bob" (GuildConfig.mk 13 none (some "alice") false none none)).2 =
      SubmitOutcome.rejected ((parseSubmitted "bob").filter (fun u => (findMember [] u).isNone)) :=
  C5_theorem [] "bob" (GuildConfig.mk 13 none (some "alice") false none none) (by decide)

/-! ### C6 -/

/--
C6 (confirmed): provisioning in a guild whose private-channel category
column is unset fails with the ConfigurationMissing error carrying the
admin-actionable message of line 302, and neither creates a channel nor
posts a message.
-/
theorem C6_theorem (env : ProvisionEnv) (cfg : GuildConfig) (userDisplay suffix : String)
    (h : cfg.private_channels_category = none) :
    create_private_channel env cfg userDisplay suffix =
      ProvisionOutcome.mk 0 0 (PResult.err (ProvisionError.configurationMissing categoryUnsetMsg)) := by
  simp [create_private_channel, pyFalsyId, h]

/--
C6 witness: a concrete provisioning attempt with the category column
unset.
-/
theorem C6_witness :
    create_private_channel (ProvisionEnv.mk (fun _ => true))
      (GuildConfig.mk 14 none none false none none) "Guardian" "introduction" =
      ProvisionOutcome.mk 0 0 (PResult.err (ProvisionError.configurationMissing categoryUnsetMsg)) :=
  C6_theorem (ProvisionEnv.mk (fun _ => true)) (GuildConfig.mk 14 none none false none none)
    "Guardian" "introduction" rfl

/-! ### C7 -/

/--
C7 (confirmed): a poll cycle leaves every feed-disabled config row exactly
as it was — every field, the watermark included — and sends it zero
messages, whatever the cycle fetched.
-/
theorem C7_theorem (env : CycleEnv) (cs : List GuildConfig) (i : Nat) (c : GuildConfig)
    (h1 : cs[i]? = some c) (h2 : c.bluesky_enabled = false) :
    (check_bluesky_feed env cs).perGuild[i]? = some (c, []) := by
  have hstep : cycleConfigStep env c = (c, []) := by
    simp [cycleConfigStep, h2]
  unfold check_bluesky_feed
  split
  · simp [untouched, List.getElem?_map, h1]
  · split
    · simp [untouched, List.getElem?_map, h1]
    · split
      · simp [untouched, List.getElem?_map, h1]
      · simp [List.getElem?_map, h1, hstep]

/-- Environment of a cycle that fetches one new deliverable item. -/
def envC7 : CycleEnv := CycleEnv.mk false true true [Post.mk "p" (some 4) true] (fun _ => true)

/-- A row with the feed disabled and every other column populated. -/
def cfgDisabled : GuildConfig := GuildConfig.mk 7 (some 1) (some "adm") false (some 3) (some 2)

/-- A second, feed-enabled row so the concrete cycle really fetches. -/
def cfgEnabledPeer : GuildConfig := GuildConfig.mk 8 none none true (some 3) none

/--
C7 witness: a concrete cycle that fetches a new item delivers nothing to
the disabled row and returns it with all fields intact.
-/
theorem C7_witness :
    (check_bluesky_feed envC7 [cfgDisabled, cfgEnabledPeer]).perGuild[0]? = some (cfgDisabled, []) :=
  C7_theorem envC7 [cfgDisabled, cfgEnabledPeer] 0 cfgDisabled rfl rfl

/-! ### C8 -/

/--
C8 (confirmed): when feed credentials are configured and login fails, the
whole poll cycle aborts before the fetch: nothing is fetched, no page
limit is requested, every config row is untouched and receives zero
messages. (The five-minute task loop of lines 239-242 fires the next
cycle regardless, so the aborted cycle is retried at the next interval.)
-/
theorem C8_theorem (env : CycleEnv) (cs : List GuildConfig)
    (h1 : env.hasCredentials = true) (h2 : env.loginOk = false) :
    check_bluesky_feed env cs = CycleResult.mk false none (untouched cs) := by
  simp [check_bluesky_feed, h1, h2]

/-- Environment of a cycle with credentials whose login fails. -/
def envC8 : CycleEnv := CycleEnv.mk true false true [Post.mk "p" (some 4) true] (fun _ => true)

/--
C8 witness: a concrete failed-login cycle over one enabled row with a
pending item changes nothing and sends nothing.
-/
theorem C8_witness :
    check_bluesky_feed envC8 [GuildConfig.mk 15 none none true (some 3) (some 1)] =
      CycleResult.mk false none (untouched [GuildConfig.mk 15 none none true (some 3) (some 1)]) :=
  C8_theorem envC8 [GuildConfig.mk 15 none none true (some 3) (some 1)] rfl rfl

/-! ### C9 -/

/-- An enabled row that has never delivered (watermark unset). -/
def cfgEnabledUnset : GuildConfig := GuildConfig.mk 21 none none true (some 5) none

/-- An enabled row that has already delivered (watermark set). -/
def cfgEnabledSet : GuildConfig := GuildConfig.mk 22 none none true (some 6) (some 7)

/--
C9, as stated, is false on the code: line 168 consults only the FIRST
enabled row's watermark. With a first enabled row whose watermark is
unset and a second enabled row whose watermark IS set, the fetch still
requests the minimal page of one item, although not every enabled
tenant's watermark is unset.
-/
theorem C9_counterexample :
    requestedPageLimit [cfgEnabledUnset, cfgEnabledSet] = some 1 ∧
    cfgEnabledSet.bluesky_enabled = true ∧ cfgEnabledSet.last_bluesky_post ≠ none := by
  decide

/--
C9 (amended): the fetch requests the minimal page size of one item
exactly when the FIRST enabled config row's watermark is unset, and the
catch-up page size of ten items otherwise; the other enabled rows'
watermarks are never consulted.
-/
theorem C9_theorem (cs : List GuildConfig) (c0 : GuildConfig) (rest : List GuildConfig)
    (h : cs.filter (fun c => c.bluesky_enabled) = c0 :: rest) :
    requestedPageLimit cs = some (if c0.last_bluesky_post = none then 1 else 10) := by
  unfold requestedPageLimit
  rw [h]

/--
C9 witness: the concrete two-row table of the counterexample, where the
first enabled row decides the page size alone.
-/
theorem C9_witness :
    requestedPageLimit [cfgEnabledUnset, cfgEnabledSet] =
      some (if cfgEnabledUnset.last_bluesky_post = none then 1 else 10) :=
  C9_theorem [cfgEnabledUnset, cfgEnabledSet] cfgEnabledUnset [cfgEnabledSet] (by decide)

/-! ### C10 -/

/--
C10 (confirmed): when no configured admin recipient resolves to a current
member (in particular when the recipients column is unset or empty), both
the signup and the help command reply with the configuration message and
stop: no channel is created and no message is posted, even when the
category column is set.
-/
theorem C10_theorem (env : ProvisionEnv) (ms : List Member) (cfg : GuildConfig) (userDisplay : String)
    (h : get_admin_mentions ms cfg.admin_usernames = []) :
    signup env ms cfg userDisplay = CommandOutcome.mk 0 0 CommandReply.noAdminsConfigured ∧
    help env ms cfg userDisplay = CommandOutcome.mk 0 0 CommandReply.noAdminsConfigured := by
  constructor <;> simp [signup, help, runProvisionCommand, h]

/--
C10 witness: a guild whose category IS set but whose single configured
recipient does not resolve against the member list; both commands stop at
the configuration message.
-/
theorem C10_witness :
    signup (ProvisionEnv.mk (fun _ => true)) [Member.mk 1 "alice" "0"]
      (GuildConfig.mk 16 (some 42) (some "bob") false none none) "Guardian" =
      CommandOutcome.mk 0 0 CommandReply.noAdminsConfigured ∧
    help (ProvisionEnv.mk (fun _ => true)) [Member.mk 1 "alice" "0"]
      (GuildConfig.mk 16 (some 42) (some "bob") false none none) "Guardian" =
      CommandOutcome.mk 0 0 CommandReply.noAdminsConfigured :=
  C10_theorem (ProvisionEnv.mk (fun _ => true)) [Member.mk 1 "alice" "0"]
    (GuildConfig.mk 16 (some 42) (some "bob") false none none) "Guardian" (by decide)

end Bot
